import Mathlib

/-!
Verification development for the lap-pattern-recognition engine of the
strava-workout-description-generator repository (src/app/analysis.py).

The Python source is shallowly embedded below.  Numbers are modelled by exact
rationals (Python uses IEEE floats; all claims checked here are far from any
tolerance boundary).  Python's `float.__pow__(0.5)` / `statistics.stdev` square
root is modelled by `sqrtq`, a monotone rational square root with absolute
error below 10⁻⁶, exact on perfect squares.  Python operations that can raise
(`ZeroDivisionError` in `_is_distance_based_workout` when the average distance
is zero) are embedded with `Option`: `none` models a raised exception, and the
`Option` is threaded through every caller, mirroring exception propagation.
Divisions whose divisor is positive on every reachable path (e.g. means of
lists of positive numbers) use total rational division.
-/

namespace Strava

/-- Binary search step for the integer square root (structural recursion on
a fuel argument so that it reduces inside the kernel).  Invariant:
`lo² ≤ n < hi²`. -/
def isqrt_go (n : ℕ) : ℕ → ℕ → ℕ → ℕ
  | 0, lo, _ => lo
  | fuel + 1, lo, hi =>
    if hi ≤ lo + 1 then lo
    else
      let mid := (lo + hi) / 2
      if mid * mid ≤ n then isqrt_go n fuel mid hi else isqrt_go n fuel lo mid

/-- Integer square root (equal to `⌊√n⌋` for every `n < 2^398`, far beyond
any number occurring here). -/
def isqrt (n : ℕ) : ℕ := isqrt_go n 200 0 (n + 1)

/-- Rational square root approximation modelling Python's float sqrt:
for `x = n/d ≥ 0` it returns `⌊10^6·√(n·d)⌋ / (d·10^6)`, which is within
`10⁻⁶` of the real square root and exact whenever `n·d·10^12` is a perfect
square (in particular on squares of rationals with denominator dividing 10^6). -/
def sqrtq (x : ℚ) : ℚ :=
  if x ≤ 0 then 0
  else (isqrt (x.num.toNat * x.den * 10 ^ 12) : ℚ) / ((x.den : ℚ) * 10 ^ 6)

/-- Python's `round`: round half to even (banker's rounding). -/
def pyround (q : ℚ) : ℤ :=
  let f := q.floor
  let r := q - (f : ℚ)
  if r < 1 / 2 then f
  else if 1 / 2 < r then f + 1
  else if f % 2 = 0 then f else f + 1

/-- Python's `int(...)` on a float: truncation toward zero. -/
def pyint (q : ℚ) : ℤ :=
  if 0 ≤ q then q.floor else -((-q).floor)

/-- Python's `range(a, b)` over integers, as a list. -/
def int_range (a b : ℤ) : List ℤ :=
  (List.range (b - a).toNat).map (fun i => a + (i : ℤ))

/-- Python's `f"{n:02d}"` zero padding for the second field of M:SS. -/
def pad2 (n : ℤ) : String :=
  if n < 10 then "0" ++ toString n else toString n

/-- Python's `f"{q:.1f}"`: format with one decimal digit (round half to even). -/
def format1f (q : ℚ) : String :=
  let t := pyround (q * 10)
  toString (Int.fdiv t 10) ++ "." ++ toString (Int.emod t 10)

/-- Python's exact list mean `sum(values) / len(values)` (callers guarantee a
non-empty list, matching the source's guards). -/
def pymean (values : List ℚ) : ℚ :=
  values.sum / (values.length : ℚ)

/-- `statistics.stdev`: sample standard deviation (divides by `n - 1`);
the source only calls it behind a `len > 1` guard. -/
def stdev_sample (values : List ℚ) : ℚ :=
  let m := pymean values
  sqrtq ((values.map (fun v => (v - m) ^ 2)).sum / ((values.length - 1 : ℕ) : ℚ))

/-- The fields of `models.Lap` that the analyzer reads. -/
structure Lap where
  distance : ℚ
  elapsed_time : ℚ
  lap_index : ℤ
deriving DecidableEq, Repr

/-- One entry of `WorkoutPattern.intervals`.  Simple patterns omit
`sequence_position`/`repetition` (the Python dict has no such keys there). -/
structure IntervalEntry where
  number : ℕ
  distance : ℚ
  time : ℚ
  lap_index : ℤ
  sequence_position : Option ℕ
  repetition : Option ℕ
deriving DecidableEq, Repr

/-- One entry of `WorkoutPattern.rest_periods`.  The CV fields are only
present in dicts built by `_calculate_rest_info`. -/
structure RestPeriod where
  time : ℚ
  distance : ℚ
  lap_count : ℕ
  time_cv : Option ℚ
  dist_cv : Option ℚ
deriving DecidableEq, Repr

/-- `models.WorkoutPattern`. -/
structure WorkoutPattern where
  pattern_type : String
  intervals : List IntervalEntry
  rest_periods : List RestPeriod
  confidence : ℚ
  description : String
deriving DecidableEq, Repr

/-- The fields of `models.WorkoutAnalysis` set by `analyze_workout_from_laps`. -/
structure WorkoutAnalysis where
  activity_id : ℤ
  activity_name : String
  activity_type : String
  total_distance : ℚ
  total_time : ℚ
  has_laps : Bool
  lap_count : ℕ
  lap_analysis : String
  detected_patterns : List WorkoutPattern
  primary_pattern : Option WorkoutPattern
  short_description : String
  detailed_description : String
  analysis_method : String
  confidence : ℚ
deriving DecidableEq, Repr

/-- `LapAnalyzer.__init__`: `self.min_interval_count = 2`. -/
def min_interval_count : ℕ := 2

/-- `self.distance_tolerance = 0.15`. -/
def distance_tolerance : ℚ := 15 / 100

/-- `self.time_tolerance = 0.15`. -/
def time_tolerance : ℚ := 15 / 100

/-- `_calculate_cv`: population coefficient of variation with guards for
short lists and a zero mean. -/
def calculate_cv (values : List ℚ) : ℚ :=
  if values.length ≤ 1 then 0
  else
    let mean_val := values.sum / (values.length : ℚ)
    if mean_val = 0 then 0
    else
      let variance := (values.map (fun v => (v - mean_val) ^ 2)).sum / (values.length : ℚ)
      sqrtq variance / mean_val

/-- `_round_time`: round to the nearest 5 s above 10 s, else to the second. -/
def round_time (seconds : ℚ) : ℤ :=
  if seconds ≤ 10 then pyround seconds
  else pyround (seconds / 5) * 5

/-- `_laps_are_similar`: distance and time each within 15 % (skipping a
dimension when either value is non-positive). -/
def laps_are_similar (lap1 lap2 : Lap) : Bool :=
  let dist_ok :=
    if 0 < lap1.distance ∧ 0 < lap2.distance then
      |lap1.distance - lap2.distance| / max lap1.distance lap2.distance ≤ distance_tolerance
    else True
  let time_ok :=
    if 0 < lap1.elapsed_time ∧ 0 < lap2.elapsed_time then
      |lap1.elapsed_time - lap2.elapsed_time| / max lap1.elapsed_time lap2.elapsed_time ≤ time_tolerance
    else True
  if dist_ok ∧ time_ok then true else false

/-- One step of `_group_similar_laps`: place a lap into the first group whose
first element is similar, else start a new group.  A group is never empty;
the `[] :: gs` case is unreachable (Python would fault on `group[0]`). -/
def place_lap : List (List Lap) → Lap → List (List Lap)
  | [], lap => [[lap]]
  | [] :: gs, lap => [] :: place_lap gs lap
  | (g0 :: grest) :: gs, lap =>
    if laps_are_similar lap g0 then ((g0 :: grest) ++ [lap]) :: gs
    else (g0 :: grest) :: place_lap gs lap

/-- `_group_similar_laps`: greedy first-fit grouping in input order. -/
def group_similar_laps (laps : List Lap) : List (List Lap) :=
  laps.foldl place_lap []

/-- `_validate_auto_lap_pattern`: a partial final lap (`distances[-1]`,
`distances[-2]`), or a final lap that matches the auto distance within 5 %. -/
def validate_auto_lap_pattern (distances : List ℚ) (auto_distance : ℚ) : Bool :=
  if distances.length < 2 then false
  else if distances.getLast?.getD 0 < distances.dropLast.getLast?.getD 0 * (7 / 10) ∨
      |distances.getLast?.getD 0 - auto_distance| / auto_distance < 5 / 100 then true
  else false

/-- `_check_consistent_distances`: ≥ 90 % of all-but-the-last lap within 5 %
of their own mean. -/
def check_consistent_distances (distances : List ℚ) : Bool :=
  if distances.length ≤ 2 then false
  else
    let main_distances := distances.dropLast
    let avg_distance := main_distances.sum / (main_distances.length : ℚ)
    let consistent_count :=
      (main_distances.filter (fun dist => |dist - avg_distance| / avg_distance < 5 / 100)).length
    if ((consistent_count : ℚ) ≥ (main_distances.length : ℚ) * (9 / 10)) then true else false

/-- The `for auto_distance in common_distances` loop of `_are_auto_laps`:
`some b` models the early `return self._validate_auto_lap_pattern(...)`,
`none` models falling through the whole loop. -/
def auto_loop (distances : List ℚ) : List ℚ → Option Bool
  | [] => none
  | auto_distance :: rest =>
    if ((distances.filter
          (fun dist => |dist - auto_distance| / auto_distance < 5 / 100)).length : ℤ) ≥
        (distances.length : ℤ) - 1 ∧
        ((distances.filter
          (fun dist => |dist - auto_distance| / auto_distance < 5 / 100)).length : ℚ) ≥
        (distances.length : ℚ) * (8 / 10) then
      some (validate_auto_lap_pattern distances auto_distance)
    else auto_loop distances rest

/-- The positive distances of a lap list (the source's
`[lap.distance for lap in laps if lap.distance > 0]`). -/
def positive_distances (laps : List Lap) : List ℚ :=
  (laps.filter (fun lap => 0 < lap.distance)).map (·.distance)

/-- `_are_auto_laps`: detect device-generated splits. -/
def are_auto_laps (laps : List Lap) : Bool :=
  if laps.length < 2 then false
  else if (positive_distances laps).isEmpty then false
  else
    match auto_loop (positive_distances laps) [1000, 1609, 5000, 400, 800] with
    | some b => b
    | none => check_consistent_distances (positive_distances laps)

/-- First half of `_filter_warmup_cooldown`: drop the first lap when it is
more than 3× the average of the next two. -/
def drop_warmup (laps : List Lap) : List Lap :=
  match laps with
  | a :: b :: c :: _ =>
    if a.distance > ((b.distance + c.distance) / 2) * 3 then laps.tail else laps
  | _ => laps

/-- Second half of `_filter_warmup_cooldown`: drop the last lap when it is
more than 3× the average of the previous two (guarded by `len > 2` on the
possibly already warmup-trimmed list). -/
def drop_cooldown (ls : List Lap) : List Lap :=
  if 2 < ls.length then
    match ls.reverse with
    | a :: b :: c :: _ =>
      if a.distance > ((b.distance + c.distance) / 2) * 3 then ls.dropLast else ls
    | _ => ls
  else ls

/-- `_filter_warmup_cooldown`: drop an over-long first and/or last lap. -/
def filter_warmup_cooldown (laps : List Lap) : List Lap :=
  if laps.length ≤ 2 then laps else drop_cooldown (drop_warmup laps)

/-- Python's `max(pace_gaps, key=lambda x: x[1])`: first element with the
maximal key (later elements replace only on a strictly greater key). -/
def pymax_by_gap : List (ℕ × ℚ) → (ℕ × ℚ)
  | [] => (0, 0)
  | x :: xs => xs.foldl (fun best y => if best.2 < y.2 then y else best) x

/-- `_identify_work_and_rest_laps`: pace-sort the laps, split at the largest
pace gap, and validate distance consistency of the work side. -/
def identify_work_and_rest_laps (laps : List Lap) : List Lap × List Lap :=
  if laps.length < 3 then (laps, [])
  else
    let lap_paces :=
      (laps.filter (fun lap => 0 < lap.distance ∧ 0 < lap.elapsed_time)).map
        (fun lap => (lap, lap.elapsed_time / (lap.distance / 1000)))
    if lap_paces.length < 3 then (laps, [])
    else
      let sorted_paces := List.insertionSort (fun a b => a.2 ≤ b.2) lap_paces
      let pace_gaps :=
        ((sorted_paces.zip sorted_paces.tail).map (fun p => p.2.2 - p.1.2)).enum
      if pace_gaps.isEmpty then (laps, [])
      else
        let largest_gap_idx := (pymax_by_gap pace_gaps).1
        let work_laps := (sorted_paces.take (largest_gap_idx + 1)).map (·.1)
        let rest_laps := (sorted_paces.drop (largest_gap_idx + 1)).map (·.1)
        if 2 ≤ work_laps.length ∧ 1 ≤ rest_laps.length then
          let work_distances := work_laps.map (·.distance)
          let avg_work_dist := work_distances.sum / (work_distances.length : ℚ)
          let consistent_work :=
            (work_distances.filter (fun d => |d - avg_work_dist| / avg_work_dist < 2 / 10)).length
          if (consistent_work : ℚ) ≥ (work_laps.length : ℚ) * (6 / 10) then (work_laps, rest_laps)
          else (laps, [])
        else (laps, [])

/-- `_calculate_rest_info`: average rest time/distance, gated on the two
coefficients of variation not both exceeding 0.4. -/
def calculate_rest_info (work_laps rest_laps all_laps : List Lap) : List RestPeriod :=
  if rest_laps.isEmpty ∨ rest_laps.length < 2 then []
  else
    let rest_times := rest_laps.map (·.elapsed_time)
    let rest_distances := rest_laps.map (·.distance)
    let avg_time := rest_times.sum / (rest_times.length : ℚ)
    let avg_distance := rest_distances.sum / (rest_distances.length : ℚ)
    let time_cv := if 0 < avg_time then calculate_cv rest_times else 0
    let dist_cv := if 0 < avg_distance then calculate_cv rest_distances else 0
    if time_cv > 4 / 10 ∧ dist_cv > 4 / 10 then []
    else [⟨avg_time, avg_distance, rest_laps.length, some time_cv, some dist_cv⟩]

/-- `_is_imperial_distance`: scan 1–10 miles in half-mile steps
(`half_miles` ranges over `2..20`), 5 % tolerance, returning the display
string on the first hit. -/
def imperial_loop (avg_distance : ℚ) : List ℕ → Bool × String
  | [] => (false, "")
  | half_miles :: rest =>
    let distance_meters := ((half_miles : ℚ) / 2) * (1609344 / 1000)
    if |avg_distance - distance_meters| / distance_meters < 5 / 100 then
      if half_miles % 2 = 0 then
        let m := half_miles / 2
        if m = 1 then (true, "1 mile") else (true, toString m ++ " miles")
      else (true, toString (half_miles / 2) ++ ".5 miles")
    else imperial_loop avg_distance rest

/-- `_is_imperial_distance`. -/
def is_imperial_distance (avg_distance : ℚ) : Bool × String :=
  imperial_loop avg_distance ((List.range 21).drop 2)

/-- `_is_distance_based_workout`.  `none` models the `ZeroDivisionError`
raised by `abs(avg_distance - rounded_distance) / avg_distance` when
`avg_distance == 0` reaches that line. -/
def is_distance_based_workout (avg_distance : ℚ) (avg_time : ℚ) : Option Bool :=
  let standard_distances : List ℚ :=
    [100, 200, 300, 400, 600, 800, 1000, 1200, 1500, 1600, 1609, 2000, 3000, 5000, 10000]
  if standard_distances.any (fun std_dist => |avg_distance - std_dist| / std_dist < 1 / 10) then
    some true
  else if (is_imperial_distance avg_distance).1 then some true
  else
    let rounded_distance := pyround (avg_distance / 50) * 50
    if avg_distance = 0 then none
    else if |avg_distance - (rounded_distance : ℚ)| / avg_distance < 1 / 10 ∧
        (rounded_distance % 100 = 0 ∨ rounded_distance % 50 = 0) then some true
    else if avg_time < 20 then some false
    else if avg_distance < 300 then some false
    else some false

/-- The metric distance formatting shared by `_generate_pattern_description`:
`Nkm` (integer km when whole, else one decimal) above 1000 m, else rounded
meters.  Mirrors the `avg_distance >= 1000` block of the source. -/
def format_distance (avg_distance : ℚ) : String :=
  if 1000 ≤ avg_distance then
    let km_value := avg_distance / 1000
    if km_value = ((pyint km_value : ℤ) : ℚ) then toString (pyint km_value) ++ "km"
    else format1f km_value ++ "km"
  else toString (pyint avg_distance) ++ "m"

/-- The time formatting of `_generate_pattern_description`: `M:SS` above a
minute, else `Ss`, after `_round_time` rounding. -/
def format_rounded_time (t : ℚ) : String :=
  let rounded := round_time t
  let minutes := Int.fdiv rounded 60
  let secs := Int.emod rounded 60
  if 0 < minutes then toString minutes ++ ":" ++ pad2 secs else toString secs ++ "s"

/-- The `description = f"{count} x {...}"` selection of
`_generate_pattern_description` (imperial display first for distance-based
workouts, else metric distance, else rounded time). -/
def base_description (count : ℕ) (avg_distance avg_time : ℚ)
    (is_distance_based : Bool) : String :=
  if is_distance_based then
    match is_imperial_distance avg_distance with
    | (true, imperial_display) => toString count ++ " x " ++ imperial_display
    | (false, _) => toString count ++ " x " ++ format_distance avg_distance
  else toString count ++ " x " ++ format_rounded_time avg_time

/-- The `recovery_str` selection of `_generate_pattern_description` (same
structure as `base_description`, applied to the first rest period). -/
def recovery_description (rest_period : RestPeriod)
    (recovery_is_distance_based : Bool) : String :=
  if recovery_is_distance_based then
    match is_imperial_distance rest_period.distance with
    | (true, imperial_recovery_display) => imperial_recovery_display
    | (false, _) => format_distance rest_period.distance
  else format_rounded_time rest_period.time

/-- `_generate_pattern_description`.  `none` models a `ZeroDivisionError`
escaping from `_is_distance_based_workout`. -/
def generate_pattern_description (count : ℕ) (avg_distance : ℚ) (avg_time : ℚ)
    (rest_periods : List RestPeriod) : Option String :=
  match is_distance_based_workout avg_distance avg_time with
  | none => none
  | some is_distance_based =>
    match rest_periods with
    | [] => some (base_description count avg_distance avg_time is_distance_based)
    | rest_period :: _ =>
      match is_distance_based_workout rest_period.distance rest_period.time with
      | none => none
      | some recovery_is_distance_based =>
        some (base_description count avg_distance avg_time is_distance_based ++ " w/ " ++
          recovery_description rest_period recovery_is_distance_based ++ " recovery")

/-- `_detect_rest_periods`: for pairs of interval laps adjacent in `all_laps`
whose lap indices differ by more than one, sum up the in-between laps found
via the `lap_by_index` dict (last occurrence wins, as in a Python dict). -/
def detect_rest_periods (interval_laps all_laps : List Lap) : List RestPeriod :=
  if interval_laps.length < 2 then []
  else
    let interval_indices := interval_laps.map (·.lap_index)
    let lap_by_index := fun (j : ℤ) => all_laps.reverse.find? (fun lap => lap.lap_index = j)
    (all_laps.zip all_laps.tail).filterMap (fun p =>
      let current_lap := p.1
      let next_lap := p.2
      if current_lap.lap_index ∈ interval_indices ∧ next_lap.lap_index ∈ interval_indices ∧
          next_lap.lap_index - current_lap.lap_index > 1 then
        let rest_laps := (int_range (current_lap.lap_index + 1) next_lap.lap_index).filterMap lap_by_index
        if rest_laps.isEmpty then none
        else some ⟨(rest_laps.map (·.elapsed_time)).sum, (rest_laps.map (·.distance)).sum,
          rest_laps.length, none, none⟩
      else none)

/-- `_calculate_confidence`: CV-based blend clamped to [0.1, 1.0], with a
flat 0.5 below three intervals. -/
def calculate_confidence (interval_laps all_laps : List Lap) : ℚ :=
  if interval_laps.length < 3 then 1 / 2
  else
    let distances := (interval_laps.map (·.distance)).filter (fun d => 0 < d)
    let dist_consistency :=
      if 1 < distances.length then
        max 0 (1 - (stdev_sample distances / pymean distances) * 5)
      else 1 / 2
    let times := (interval_laps.map (·.elapsed_time)).filter (fun t => 0 < t)
    let time_consistency :=
      if 1 < times.length then
        max 0 (1 - (stdev_sample times / pymean times) * 3)
      else 1 / 2
    let interval_proportion := (interval_laps.length : ℚ) / (all_laps.length : ℚ)
    min 1 (max (1 / 10)
      (dist_consistency * (4 / 10) + time_consistency * (4 / 10) + interval_proportion * (2 / 10)))

/-- `statistics.mean(distances) if distances else 0` over the lap distances. -/
def avg_distance_of (interval_laps : List Lap) : ℚ :=
  if (interval_laps.map (·.distance)).isEmpty then 0 else pymean (interval_laps.map (·.distance))

/-- `statistics.mean(times) if times else 0` over the lap times. -/
def avg_time_of (interval_laps : List Lap) : ℚ :=
  if (interval_laps.map (·.elapsed_time)).isEmpty then 0
  else pymean (interval_laps.map (·.elapsed_time))

/-- `_create_workout_pattern` (the unused `pattern_id` argument of the source
is dropped; it never influences the result). -/
def create_workout_pattern (interval_laps all_laps : List Lap) : Option WorkoutPattern :=
  match generate_pattern_description interval_laps.length (avg_distance_of interval_laps)
      (avg_time_of interval_laps) (detect_rest_periods interval_laps all_laps) with
  | none => none
  | some description =>
    some { pattern_type := "intervals"
           intervals := interval_laps.enum.map (fun p =>
             ⟨p.1 + 1, p.2.distance, p.2.elapsed_time, p.2.lap_index, none, none⟩)
           rest_periods := detect_rest_periods interval_laps all_laps
           confidence := calculate_confidence interval_laps all_laps
           description := description }

/-- The pattern-creation loops of `analyze_laps` and `_find_all_patterns`:
create a simple pattern for every group of at least `min_interval_count`
laps, propagating an exception (`none`) from any creation. -/
def create_patterns (groups : List (List Lap)) (all_laps : List Lap) :
    Option (List WorkoutPattern) :=
  match groups with
  | [] => some []
  | g :: gs =>
    if min_interval_count ≤ g.length then
      match create_workout_pattern g all_laps with
      | none => none
      | some p =>
        match create_patterns gs all_laps with
        | none => none
        | some ps => some (p :: ps)
    else create_patterns gs all_laps

/-- `_calculate_complex_confidence`: average per-position consistency plus a
repetition bonus, clamped to [0.1, 1.0]. -/
def calculate_complex_confidence (pattern_laps : List Lap)
    (sequence_groups : List (List Lap)) : ℚ :=
  if sequence_groups.isEmpty ∨ pattern_laps.isEmpty then 1 / 10
  else
    let position_consistencies := sequence_groups.map (fun group =>
      if 1 < group.length then
        let distances := (group.map (·.distance)).filter (fun d => 0 < d)
        let times := (group.map (·.elapsed_time)).filter (fun t => 0 < t)
        let dist_consistency :=
          if 1 < distances.length then
            max 0 (1 - (stdev_sample distances / pymean distances) * 3)
          else 1
        let time_consistency :=
          if 1 < times.length then
            max 0 (1 - (stdev_sample times / pymean times) * 2)
          else 1
        (dist_consistency + time_consistency) / 2
      else 1 / 2)
    let avg_consistency :=
      if position_consistencies.isEmpty then 1 / 2 else pymean position_consistencies
    let repetition_bonus :=
      min (2 / 10) ((pattern_laps.length : ℚ) / ((sequence_groups.length : ℚ) * 10))
    min 1 (max (1 / 10) (avg_consistency + repetition_bonus))

/-- `_create_complex_workout_pattern`.  Distances of each sequence position
are averaged and joined with `", "` inside `"{repetitions} x (...)"`. -/
def create_complex_workout_pattern (pattern_laps : List Lap) (pattern_types : List ℕ)
    (repetitions : ℕ) (all_laps : List Lap) : WorkoutPattern :=
  let seq_length := pattern_types.length
  let sequence_groups := (List.range seq_length).map (fun j =>
    (pattern_laps.enum.filter (fun p => p.1 % seq_length = j)).map (·.2))
  let avg_distances := sequence_groups.filterMap (fun group =>
    if group.isEmpty then none
    else some ((group.map (·.distance)).sum / (group.length : ℚ)))
  let distance_parts := avg_distances.map (fun dist =>
    if 1000 ≤ dist then format1f (dist / 1000) ++ "km" else toString (pyint dist) ++ "m")
  let description := toString repetitions ++ " x (" ++ String.intercalate ", " distance_parts ++ ")"
  { pattern_type := "complex_intervals"
    intervals := pattern_laps.enum.map (fun p =>
      ⟨p.1 + 1, p.2.distance, p.2.elapsed_time, p.2.lap_index,
        some (p.1 % seq_length), some (p.1 / seq_length + 1)⟩)
    rest_periods := detect_rest_periods pattern_laps all_laps
    confidence := calculate_complex_confidence pattern_laps sequence_groups
    description := description }

/-- The repetition-counting loop of `_find_repeating_sequence`, structurally
recursive on a fuel argument (initialised to the list length, which bounds
the number of length-`k` blocks for the `k ≥ 2` the caller supplies):
count the consecutive blocks of length `k` matching `pattern` from the
start, stopping at the first mismatch; a trailing partial block is ignored. -/
def count_reps_go (pattern : List ℕ) (k : ℕ) : ℕ → List ℕ → ℕ
  | 0, _ => 0
  | fuel + 1, s =>
    if s.length < k then 0
    else if s.take k = pattern then 1 + count_reps_go pattern k fuel (s.drop k) else 0

/-- The repetition count of `_find_repeating_sequence`. -/
def count_reps (pattern : List ℕ) (k : ℕ) (s : List ℕ) : ℕ :=
  count_reps_go pattern k s.length s

/-- The `lap_sequence` of `_find_repeating_sequence`, sorted by lap index
(group index plays the role of the `"type_i"` tag; Python's `list.sort` is
stable, as is `List.insertionSort`). -/
def sorted_lap_sequence (groups : List (List Lap)) : List (ℤ × ℕ × Lap) :=
  List.insertionSort (fun a b : ℤ × ℕ × Lap => a.1 ≤ b.1)
    (groups.enum.flatMap (fun p => p.2.map (fun lap => (lap.lap_index, p.1, lap))))

/-- The `type_sequence` of `_find_repeating_sequence`. -/
def type_sequence_of (groups : List (List Lap)) : List ℕ :=
  (sorted_lap_sequence groups).map (fun p => p.2.1)

/-- The `repetitions` value of `_find_repeating_sequence`: repetitions of
the leading length-`seq_length` block of group tags. -/
def repetitions_of (groups : List (List Lap)) (seq_length : ℕ) : ℕ :=
  count_reps ((type_sequence_of groups).take seq_length) seq_length (type_sequence_of groups)

/-- `_find_repeating_sequence`. -/
def find_repeating_sequence (groups : List (List Lap)) (seq_length : ℕ)
    (all_laps : List Lap) : Option WorkoutPattern :=
  if groups.length < seq_length then none
  else if (type_sequence_of groups).length < seq_length * 2 then none
  else if 2 ≤ repetitions_of groups seq_length then
    some (create_complex_workout_pattern
      (((sorted_lap_sequence groups).take (repetitions_of groups seq_length * seq_length)).map
        (fun p => p.2.2))
      ((type_sequence_of groups).take seq_length)
      (repetitions_of groups seq_length)
      all_laps)
  else none

/-- The `for seq_length in range(2, min(len(sorted_groups) + 1, 6))` loop of
`_detect_complex_pattern`: first successful sequence length wins. -/
def complex_loop (sorted_groups : List (List Lap)) (all_laps : List Lap) :
    List ℕ → Option WorkoutPattern
  | [] => none
  | seq_length :: rest =>
    match find_repeating_sequence sorted_groups seq_length all_laps with
    | some p => some p
    | none => complex_loop sorted_groups all_laps rest

/-- The `sorted_groups` of `_detect_complex_pattern`: groups sorted by
average distance (groups are never empty, so the mean divisor is positive;
Python's `sorted` is stable, as is `List.insertionSort`). -/
def sorted_groups_by_distance (groups : List (List Lap)) : List (List Lap) :=
  List.insertionSort
    (fun g1 g2 : List Lap =>
      (g1.map (·.distance)).sum / (g1.length : ℚ) ≤ (g2.map (·.distance)).sum / (g2.length : ℚ))
    groups

/-- `_detect_complex_pattern`: search sequence lengths 2 to 5 over the
distance-sorted groups. -/
def detect_complex_pattern (groups : List (List Lap)) (all_laps : List Lap) :
    Option WorkoutPattern :=
  if groups.length < 2 then none
  else complex_loop (sorted_groups_by_distance groups) all_laps
    ((List.range (min ((sorted_groups_by_distance groups).length + 1) 6)).drop 2)

/-- `_find_all_patterns`: simple patterns for every large-enough group, plus
an optional complex repeating pattern. -/
def find_all_patterns (groups : List (List Lap)) (all_laps : List Lap) :
    Option (List WorkoutPattern) :=
  match create_patterns groups all_laps with
  | none => none
  | some patterns =>
    match detect_complex_pattern groups all_laps with
    | some complex_pattern => some (patterns ++ [complex_pattern])
    | none => some patterns

/-- The `if work_laps and rest_laps` branch of `analyze_laps`: simple
patterns over the similarity groups of the work laps, falling back to
`_find_all_patterns` when none exist, then `rest_periods` overwritten on
every pattern with the `_calculate_rest_info` summary. -/
def analyze_with_separation (work_laps rest_laps filtered_laps : List Lap) :
    Option (List WorkoutPattern) :=
  match create_patterns (group_similar_laps work_laps) work_laps with
  | none => none
  | some simple_patterns =>
    match (if simple_patterns.isEmpty
           then find_all_patterns (group_similar_laps work_laps) work_laps
           else some simple_patterns) with
    | none => none
    | some patterns =>
      some (patterns.map (fun p =>
        { p with rest_periods := calculate_rest_info work_laps rest_laps filtered_laps }))

/-- The no-separation branch of `analyze_laps`. -/
def analyze_without_separation (filtered_laps : List Lap) : Option (List WorkoutPattern) :=
  find_all_patterns (group_similar_laps filtered_laps) filtered_laps

/-- `analyze_laps`: the top of the analyzer.  `some ps` is a normal return of
the pattern list `ps`; `none` models an uncaught exception.  The source's
local `filtered_laps`/`work_laps`/`rest_laps` are written out in full. -/
def analyze_laps (laps : List Lap) : Option (List WorkoutPattern) :=
  if laps.length < min_interval_count then some []
  else if are_auto_laps laps then some []
  else if (filter_warmup_cooldown laps).length < min_interval_count then some []
  else if ¬(identify_work_and_rest_laps (filter_warmup_cooldown laps)).1.isEmpty ∧
      ¬(identify_work_and_rest_laps (filter_warmup_cooldown laps)).2.isEmpty then
    analyze_with_separation (identify_work_and_rest_laps (filter_warmup_cooldown laps)).1
      (identify_work_and_rest_laps (filter_warmup_cooldown laps)).2
      (filter_warmup_cooldown laps)
  else analyze_without_separation (filter_warmup_cooldown laps)

/-- Python's `max(patterns, key=lambda p: p.confidence)`: first pattern with
the maximal confidence. -/
def pymax_by_confidence : List WorkoutPattern → WorkoutPattern
  | [] => ⟨"", [], [], 0, ""⟩
  | p :: ps => ps.foldl (fun best q => if best.confidence < q.confidence then q else best) p

/-- `_select_primary_pattern`: prefer complex patterns, then highest confidence. -/
def select_primary_pattern (patterns : List WorkoutPattern) : Option WorkoutPattern :=
  if patterns.isEmpty then none
  else
    let complex_patterns := patterns.filter (fun p => p.pattern_type = "complex_intervals")
    if ¬complex_patterns.isEmpty then some (pymax_by_confidence complex_patterns)
    else some (pymax_by_confidence patterns)

/-- `_generate_descriptions`. -/
def generate_descriptions (patterns : List WorkoutPattern)
    (primary_pattern : Option WorkoutPattern) : String × String :=
  match patterns, primary_pattern with
  | [_], some pp => (pp.description, "Workout structure: " ++ pp.description)
  | _, _ =>
    let pattern_descriptions := patterns.map (·.description)
    (String.intercalate "\n" pattern_descriptions,
      "Complex workout with multiple patterns:\n" ++ String.intercalate "\n" pattern_descriptions)

/-- `analyze_workout_from_laps`: the module-level entry point.  The outer
`Option` models an uncaught exception; the inner `Option` is the Python
`Optional[WorkoutAnalysis]` return value. -/
def analyze_workout_from_laps (laps : List Lap) (activity_name activity_type : String) :
    Option (Option WorkoutAnalysis) :=
  if laps.isEmpty then some none
  else
    match analyze_laps laps with
    | none => none
    | some patterns =>
      if patterns.isEmpty then some none
      else
        let total_distance := (laps.map (·.distance)).sum
        let total_time := (laps.map (·.elapsed_time)).sum
        let primary_pattern := select_primary_pattern patterns
        let descs := generate_descriptions patterns primary_pattern
        let short_desc := descs.1
        let detailed_desc := descs.2
        let lap_analysis :=
          if 1 < patterns.length then
            "Detected " ++ toString patterns.length ++ " pattern(s):\n" ++ short_desc
          else "Detected " ++ toString patterns.length ++ " pattern(s): " ++ short_desc
        some (some
          { activity_id := 0
            activity_name := activity_name
            activity_type := activity_type
            total_distance := total_distance
            total_time := total_time
            has_laps := true
            lap_count := laps.length
            lap_analysis := lap_analysis
            detected_patterns := patterns
            primary_pattern := primary_pattern
            short_description := short_desc
            detailed_description := detailed_desc ++ ". Total: " ++
              format1f (total_distance / 1000) ++ "km in " ++
              toString (pyint (total_time / 60)) ++ ":" ++
              pad2 (pyround (total_time - 60 * (pyint (total_time / 60) : ℚ)))
            analysis_method := "laps"
            confidence := match primary_pattern with
              | some pp => pp.confidence
              | none => 1 / 10 })

/-! Concrete lap sequences used by the claim theorems.  Laps are written as
`⟨distance, elapsed_time, lap_index⟩`. -/

/-- The exact 7-lap input of the spec's "Regular intervals" property:
`(time, distance, index)` pairs `(90,400,1) … (89,400,7)`, every distance
400 m. -/
def c1_laps : List Lap :=
  [⟨400, 90, 1⟩, ⟨400, 180, 2⟩, ⟨400, 88, 3⟩, ⟨400, 178, 4⟩,
   ⟨400, 92, 5⟩, ⟨400, 182, 6⟩, ⟨400, 89, 7⟩]

/-- Five laps, four of them exactly 1000 m (thus ≥ n−1 within 5 % of 1000 m)
and a final 2000 m lap that defeats `_validate_auto_lap_pattern`. -/
def c2_laps : List Lap :=
  [⟨1000, 240, 1⟩, ⟨1000, 240, 2⟩, ⟨1000, 240, 3⟩, ⟨1000, 240, 4⟩, ⟨2000, 1200, 5⟩]

/-- Three 1000 m laps: every lap within 5 % of 1000 m. -/
def c2_witness_laps : List Lap := [⟨1000, 240, 1⟩, ⟨1000, 241, 2⟩, ⟨1000, 242, 3⟩]

/-- Two similar 600 m laps — fewer than 3 laps. -/
def c3_laps : List Lap := [⟨600, 90, 1⟩, ⟨600, 92, 2⟩]

/-- Work/rest input whose work laps, pace-sorted, are laps 3, 5, 1. -/
def c4_laps : List Lap :=
  [⟨600, 92, 1⟩, ⟨200, 300, 2⟩, ⟨600, 88, 3⟩, ⟨200, 305, 4⟩, ⟨600, 90, 5⟩]

/-- Two similar 600 m laps for instantiating the amended C4 statement. -/
def c4_witness_laps : List Lap := [⟨600, 90, 1⟩, ⟨600, 93, 2⟩]

/-- The pattern `analyze_laps` produces for `c4_witness_laps`. -/
def c4_witness_pattern : WorkoutPattern :=
  { pattern_type := "intervals"
    intervals := [⟨1, 600, 90, 1, none, none⟩, ⟨2, 600, 93, 2, none, none⟩]
    rest_periods := []
    confidence := 1 / 2
    description := "2 x 600m" }

/-- Three consistent 600 m work laps with six 200 m rest laps whose times
spread from 200 s to 1000 s: rest-time CV ≈ 0.455 > 0.4 while rest-distance
CV = 0. -/
def c5_laps : List Lap :=
  [⟨600, 88, 1⟩, ⟨200, 200, 2⟩, ⟨600, 90, 3⟩, ⟨200, 360, 4⟩, ⟨600, 92, 5⟩,
   ⟨200, 520, 6⟩, ⟨200, 680, 7⟩, ⟨200, 840, 8⟩, ⟨200, 1000, 9⟩]

/-- The rest laps of `c5_laps`, for instantiating the amended C5 statement. -/
def c5_witness_rest : List Lap :=
  [⟨200, 200, 2⟩, ⟨200, 360, 4⟩, ⟨200, 520, 6⟩, ⟨200, 680, 7⟩, ⟨200, 840, 8⟩, ⟨200, 1000, 9⟩]

/-- Same shape as `c4_laps`: its pattern stores a rest summary although its
description was generated from an empty rest list. -/
def c6_laps : List Lap :=
  [⟨600, 92, 1⟩, ⟨200, 300, 2⟩, ⟨600, 88, 3⟩, ⟨200, 305, 4⟩, ⟨600, 90, 5⟩]

/-- Nine work laps forming three repetitions of 200 m–400 m–200 m, all at
the same 200 s/km pace. -/
def c7_laps : List Lap :=
  [⟨200, 40, 1⟩, ⟨400, 80, 2⟩, ⟨200, 40, 3⟩, ⟨200, 40, 4⟩, ⟨400, 80, 5⟩,
   ⟨200, 40, 6⟩, ⟨200, 40, 7⟩, ⟨400, 80, 8⟩, ⟨200, 40, 9⟩]

/-- Two degenerate laps with zero distance and positive, similar times. -/
def c8_laps : List Lap := [⟨0, 50, 1⟩, ⟨0, 52, 2⟩]

/-- Two similar 600 m laps used to instantiate the C9 bounds. -/
def c9_laps : List Lap := [⟨600, 90, 1⟩, ⟨600, 92, 2⟩]

/-- The pattern `analyze_laps` produces for `c9_laps`. -/
def c9_pattern : WorkoutPattern :=
  { pattern_type := "intervals"
    intervals := [⟨1, 600, 90, 1, none, none⟩, ⟨2, 600, 92, 2, none, none⟩]
    rest_periods := []
    confidence := 1 / 2
    description := "2 x 600m" }

/-! Claim theorems. -/

/-- C1: for the spec's 7-lap all-400 m interval session (work laps 1,3,5,7,
rest laps 2,4,6) the code returns no analysis at all: `_are_auto_laps`
classifies the sequence as device-generated (400 m is in `common_distances`
and the final lap matches it), so `analyze_laps` yields `[]` and
`analyze_workout_from_laps` yields `None` — not an analysis whose primary
pattern is described "4 x 400m" as the spec and the repository's own test
cases (lap_test_cases Case 2A) expect. -/
theorem c1_code_evaluation :
    are_auto_laps c1_laps = true ∧
    analyze_laps c1_laps = some [] ∧
    analyze_workout_from_laps c1_laps "" "" = some none := by
  refine ⟨by with_unfolding_all decide, by with_unfolding_all decide, by with_unfolding_all decide⟩

/-- C2: counterexample to "≥ n−1 of n laps within 5 % of 1000 m implies no
detected pattern": in `c2_laps`, 4 of 5 laps are exactly 1000 m, yet the
final 2000 m lap fails `_validate_auto_lap_pattern`, whose result is
returned immediately, and the analysis detects a "4 x 1km" pattern. -/
theorem c2_counterexample :
    ((c2_laps.filter (fun l => |l.distance - 1000| / 1000 < 5 / 100)).length : ℤ) ≥
      (c2_laps.length : ℤ) - 1 ∧
    (analyze_laps c2_laps).map (fun ps => ps.map (·.description)) = some ["4 x 1km"] := by
  refine ⟨by with_unfolding_all decide, by with_unfolding_all decide⟩

/-- C3: counterexample to "fewer than 3 laps implies no detected pattern":
two similar 600 m laps already produce a "2 x 600m" pattern, because
`min_interval_count` is 2. -/
theorem c3_counterexample :
    c3_laps.length < 3 ∧
    (analyze_laps c3_laps).map (fun ps => ps.map (·.description)) = some ["2 x 600m"] := by
  refine ⟨by with_unfolding_all decide, by with_unfolding_all decide⟩

/-- One step of the auto-distance loop when the match count is large enough:
the validation result is returned immediately. -/
theorem auto_loop_cons_true (distances : List ℚ) (a : ℚ) (rest : List ℚ)
    (hcond : ((distances.filter (fun dist => |dist - a| / a < 5 / 100)).length : ℤ) ≥
        (distances.length : ℤ) - 1 ∧
      ((distances.filter (fun dist => |dist - a| / a < 5 / 100)).length : ℚ) ≥
        (distances.length : ℚ) * (8 / 10)) :
    auto_loop distances (a :: rest) = some (validate_auto_lap_pattern distances a) := by
  unfold auto_loop
  rw [if_pos hcond]

/-- One step of the auto-distance loop when the match count is too small. -/
theorem auto_loop_cons_skip (distances : List ℚ) (a : ℚ) (rest : List ℚ)
    (hcond : ¬(((distances.filter (fun dist => |dist - a| / a < 5 / 100)).length : ℤ) ≥
        (distances.length : ℤ) - 1 ∧
      ((distances.filter (fun dist => |dist - a| / a < 5 / 100)).length : ℚ) ≥
        (distances.length : ℚ) * (8 / 10))) :
    auto_loop distances (a :: rest) = auto_loop distances rest := by
  conv_lhs => unfold auto_loop
  rw [if_neg hcond]

/-- `_validate_auto_lap_pattern` accepts when the final lap matches the auto
distance within 5 %. -/
theorem validate_last_match (distances : List ℚ) (a : ℚ) (hlen : 2 ≤ distances.length)
    (hlast : |distances.getLast?.getD 0 - a| / a < 5 / 100) :
    validate_auto_lap_pattern distances a = true := by
  unfold validate_auto_lap_pattern
  rw [if_neg (by omega), if_pos (Or.inr hlast)]

/-- The last element of a non-empty list belongs to it. -/
theorem getLastD_mem (l : List ℚ) (hne : l ≠ []) : l.getLast?.getD 0 ∈ l := by
  rw [List.getLast?_eq_getLast_of_ne_nil hne]
  simpa using List.getLast_mem hne

/-- Distances within 5 % of 1000 m are positive. -/
theorem pos_of_within_1000 (d : ℚ) (h : |d - 1000| / 1000 < 5 / 100) : 0 < d := by
  rw [div_lt_iff (by norm_num : (0 : ℚ) < 1000)] at h
  have h2 := (abs_lt.mp h).1
  linarith

/-- Distances within 5 % of 1609 m are positive. -/
theorem pos_of_within_1609 (d : ℚ) (h : |d - 1609| / 1609 < 5 / 100) : 0 < d := by
  rw [div_lt_iff (by norm_num : (0 : ℚ) < 1609)] at h
  have h2 := (abs_lt.mp h).1
  linarith

/-- A distance within 5 % of 1609 m is not within 5 % of 1000 m, so the
1000 m candidate of `_are_auto_laps` collects no matches on an all-mile
sequence. -/
theorem within_1609_not_1000 (d : ℚ) (h : |d - 1609| / 1609 < 5 / 100) :
    ¬(|d - 1000| / 1000 < 5 / 100) := by
  intro h2
  rw [div_lt_iff (by norm_num : (0 : ℚ) < 1609)] at h
  rw [div_lt_iff (by norm_num : (0 : ℚ) < 1000)] at h2
  have h3 := (abs_lt.mp h).1
  have h4 := (abs_lt.mp h2).2
  linarith

/-- With only positive distances the source's filtered distance list is the
full distance list. -/
theorem positive_distances_eq (laps : List Lap) (hpos : ∀ l ∈ laps, 0 < l.distance) :
    positive_distances laps = laps.map (·.distance) := by
  unfold positive_distances
  rw [List.filter_eq_self.mpr]
  intro l hl
  exact decide_eq_true (hpos l hl)

/-- `_are_auto_laps` fires on any sequence of ≥ 2 laps all within 5 % of
1000 m: every lap matches the first candidate auto distance and the final
lap matches it too. -/
theorem are_auto_of_all_1000 (laps : List Lap) (hlen2 : 2 ≤ laps.length)
    (h : ∀ l ∈ laps, |l.distance - 1000| / 1000 < 5 / 100) :
    are_auto_laps laps = true := by
  have hpos : ∀ l ∈ laps, 0 < l.distance := fun l hl => pos_of_within_1000 _ (h l hl)
  have hdist : positive_distances laps = laps.map (·.distance) := positive_distances_eq laps hpos
  have hlen3 : 2 ≤ (positive_distances laps).length := by
    rw [hdist, List.length_map]
    exact hlen2
  have hne : positive_distances laps ≠ [] := by
    intro hnil
    rw [hnil] at hlen3
    simp at hlen3
  have hall : ∀ d ∈ positive_distances laps, |d - (1000 : ℚ)| / 1000 < 5 / 100 := by
    intro d hd
    rw [hdist] at hd
    obtain ⟨l, hl, rfl⟩ := List.mem_map.mp hd
    exact h l hl
  have hfilter :
      (positive_distances laps).filter (fun dist => |dist - (1000 : ℚ)| / 1000 < 5 / 100) =
        positive_distances laps :=
    List.filter_eq_self.mpr (fun d hd => decide_eq_true (hall d hd))
  have hloop : auto_loop (positive_distances laps) [1000, 1609, 5000, 400, 800] =
      some (validate_auto_lap_pattern (positive_distances laps) 1000) := by
    apply auto_loop_cons_true
    rw [hfilter]
    constructor
    · omega
    · have hnn : (0 : ℚ) ≤ ((positive_distances laps).length : ℚ) := Nat.cast_nonneg _
      nlinarith
  have hval : validate_auto_lap_pattern (positive_distances laps) 1000 = true :=
    validate_last_match _ _ hlen3 (hall _ (getLastD_mem _ hne))
  unfold are_auto_laps
  rw [if_neg (by omega), if_neg (by simp [List.isEmpty_iff, hne]), hloop]
  exact hval

/-- `_are_auto_laps` fires on any sequence of ≥ 2 laps all within 5 % of
1609 m: the 1000 m candidate collects no matches and is skipped, and every
lap (the final one included) matches the 1609 m candidate. -/
theorem are_auto_of_all_1609 (laps : List Lap) (hlen2 : 2 ≤ laps.length)
    (h : ∀ l ∈ laps, |l.distance - 1609| / 1609 < 5 / 100) :
    are_auto_laps laps = true := by
  have hpos : ∀ l ∈ laps, 0 < l.distance := fun l hl => pos_of_within_1609 _ (h l hl)
  have hdist : positive_distances laps = laps.map (·.distance) := positive_distances_eq laps hpos
  have hlen3 : 2 ≤ (positive_distances laps).length := by
    rw [hdist, List.length_map]
    exact hlen2
  have hne : positive_distances laps ≠ [] := by
    intro hnil
    rw [hnil] at hlen3
    simp at hlen3
  have hall : ∀ d ∈ positive_distances laps, |d - (1609 : ℚ)| / 1609 < 5 / 100 := by
    intro d hd
    rw [hdist] at hd
    obtain ⟨l, hl, rfl⟩ := List.mem_map.mp hd
    exact h l hl
  have hfilter0 :
      (positive_distances laps).filter (fun dist => |dist - (1000 : ℚ)| / 1000 < 5 / 100) = [] :=
    List.filter_eq_nil.mpr (fun d hd => by
      simpa using within_1609_not_1000 d (hall d hd))
  have hfilter :
      (positive_distances laps).filter (fun dist => |dist - (1609 : ℚ)| / 1609 < 5 / 100) =
        positive_distances laps :=
    List.filter_eq_self.mpr (fun d hd => decide_eq_true (hall d hd))
  have hskip : auto_loop (positive_distances laps) [1000, 1609, 5000, 400, 800] =
      auto_loop (positive_distances laps) [1609, 5000, 400, 800] := by
    apply auto_loop_cons_skip
    rw [hfilter0]
    rintro ⟨h1, _⟩
    simp only [List.length_nil, Nat.cast_zero] at h1
    omega
  have hloop : auto_loop (positive_distances laps) [1609, 5000, 400, 800] =
      some (validate_auto_lap_pattern (positive_distances laps) 1609) := by
    apply auto_loop_cons_true
    rw [hfilter]
    constructor
    · omega
    · have hnn : (0 : ℚ) ≤ ((positive_distances laps).length : ℚ) := Nat.cast_nonneg _
      nlinarith
  have hval : validate_auto_lap_pattern (positive_distances laps) 1609 = true :=
    validate_last_match _ _ hlen3 (hall _ (getLastD_mem _ hne))
  unfold are_auto_laps
  rw [if_neg (by omega), if_neg (by simp [List.isEmpty_iff, hne]), hskip, hloop]
  exact hval

/-- C2 (amended): when every lap of the sequence is within 5 % of 1000 m, or
every lap is within 5 % of 1609 m, the analysis detects no pattern (the
auto-lap filter fires, or the sequence is shorter than the minimum).  The
original "≥ n−1 of n laps" form fails because `_are_auto_laps` returns the
result of `_validate_auto_lap_pattern` immediately, so a non-partial,
non-matching final lap defeats the filter — see the counterexample. -/
theorem c2_amended (laps : List Lap)
    (h : (∀ l ∈ laps, |l.distance - 1000| / 1000 < 5 / 100) ∨
      (∀ l ∈ laps, |l.distance - 1609| / 1609 < 5 / 100)) :
    analyze_laps laps = some [] := by
  by_cases hlen : laps.length < min_interval_count
  · unfold analyze_laps
    rw [if_pos hlen]
  · have hlen2 : 2 ≤ laps.length := by
      simp only [min_interval_count, not_lt] at hlen
      exact hlen
    have hauto : are_auto_laps laps = true := by
      rcases h with h | h
      · exact are_auto_of_all_1000 laps hlen2 h
      · exact are_auto_of_all_1609 laps hlen2 h
    unfold analyze_laps
    rw [if_neg hlen, if_pos hauto]

/-- C2 witness; instantiates `c2_amended` on three laps of exactly 1000 m. -/
theorem c2_amended_witness :
    (∀ l ∈ c2_witness_laps, |l.distance - 1000| / 1000 < 5 / 100) ∧
    analyze_laps c2_witness_laps = some [] :=
  ⟨by with_unfolding_all decide,
    c2_amended c2_witness_laps (Or.inl (by with_unfolding_all decide))⟩

/-- C3 (amended): with fewer laps than `min_interval_count = 2` the analysis
returns no pattern (the source's minimum is 2, not the 3 stated by the
spec). -/
theorem c3_amended (laps : List Lap) (h : laps.length < 2) : analyze_laps laps = some [] := by
  have h2 : laps.length < min_interval_count := by simpa [min_interval_count] using h
  simp [analyze_laps, h2]

/-- C3 witness; instantiates `c3_amended` on the empty lap list. -/
theorem c3_amended_witness :
    ([] : List Lap).length < 2 ∧ analyze_laps ([] : List Lap) = some [] :=
  ⟨by decide, c3_amended [] (by decide)⟩

/-- Every pattern produced by the creation loop stems from
`_create_workout_pattern`. -/
theorem create_patterns_mem (groups : List (List Lap)) (all_laps : List Lap)
    (ps : List WorkoutPattern) (h : create_patterns groups all_laps = some ps) :
    ∀ p ∈ ps, ∃ g ∈ groups, create_workout_pattern g all_laps = some p := by
  induction groups generalizing ps with
  | nil =>
    unfold create_patterns at h
    rw [Option.some.injEq] at h
    intro p hp
    rw [← h] at hp
    simp at hp
  | cons g gs ih =>
    unfold create_patterns at h
    split at h
    · split at h
      · exact absurd h (by simp)
      · rename_i q hq
        split at h
        · exact absurd h (by simp)
        · rename_i qs hqs
          rw [Option.some.injEq] at h
          intro p hp
          rw [← h] at hp
          rcases List.mem_cons.mp hp with hp | hp
          · exact ⟨g, List.mem_cons_self g gs, by rw [← hp] at hq; exact hq⟩
          · obtain ⟨g2, hg2mem, hg2⟩ := ih qs hqs p hp
            exact ⟨g2, List.mem_cons_of_mem g hg2mem, hg2⟩
    · intro p hp
      obtain ⟨g2, hg2mem, hg2⟩ := ih ps h p hp
      exact ⟨g2, List.mem_cons_of_mem g hg2mem, hg2⟩

/-- `_filter_warmup_cooldown`'s first stage keeps a sublist. -/
theorem drop_warmup_sublist (laps : List Lap) : List.Sublist (drop_warmup laps) laps := by
  unfold drop_warmup
  split
  · split
    · exact List.tail_sublist _
    · exact List.Sublist.refl _
  · exact List.Sublist.refl _

/-- `_filter_warmup_cooldown`'s second stage keeps a sublist. -/
theorem drop_cooldown_sublist (ls : List Lap) : List.Sublist (drop_cooldown ls) ls := by
  unfold drop_cooldown
  split
  · split
    · split
      · exact List.dropLast_sublist _
      · exact List.Sublist.refl _
    · exact List.Sublist.refl _
  · exact List.Sublist.refl _

/-- `_filter_warmup_cooldown` keeps a sublist of its input. -/
theorem filter_warmup_cooldown_sublist (laps : List Lap) :
    List.Sublist (filter_warmup_cooldown laps) laps := by
  unfold filter_warmup_cooldown
  split
  · exact List.Sublist.refl _
  · exact (drop_cooldown_sublist _).trans (drop_warmup_sublist _)

/-- Placing a lap keeps every group a sublist of the processed prefix. -/
theorem place_lap_sublist (groups : List (List Lap)) (lap : Lap) (pre : List Lap)
    (hg : ∀ g ∈ groups, List.Sublist g pre) :
    ∀ g ∈ place_lap groups lap, List.Sublist g (pre ++ [lap]) := by
  induction groups with
  | nil =>
    intro g hgmem
    simp only [place_lap] at hgmem
    rw [List.mem_singleton] at hgmem
    rw [hgmem]
    exact List.sublist_append_right pre [lap]
  | cons g0 gs ih =>
    intro g hgmem
    cases g0 with
    | nil =>
      simp only [place_lap] at hgmem
      rcases List.mem_cons.mp hgmem with rfl | hgmem
      · exact List.nil_sublist _
      · exact ih (fun g2 hg2 => hg g2 (List.mem_cons_of_mem _ hg2)) g hgmem
    | cons x xs =>
      simp only [place_lap] at hgmem
      by_cases hsim : laps_are_similar lap x
      · rw [if_pos hsim] at hgmem
        rcases List.mem_cons.mp hgmem with rfl | hgmem
        · exact List.Sublist.append (hg (x :: xs) (List.mem_cons_self _ _)) (List.Sublist.refl [lap])
        · exact (hg g (List.mem_cons_of_mem _ hgmem)).trans (List.sublist_append_left _ _)
      · rw [if_neg hsim] at hgmem
        rcases List.mem_cons.mp hgmem with rfl | hgmem
        · exact (hg (x :: xs) (List.mem_cons_self _ _)).trans (List.sublist_append_left _ _)
        · exact ih (fun g2 hg2 => hg g2 (List.mem_cons_of_mem _ hg2)) g hgmem

/-- Loop invariant of `_group_similar_laps`: every group is a sublist of the
prefix processed so far. -/
theorem group_similar_go_sublist (laps : List Lap) :
    ∀ (acc : List (List Lap)) (pre : List Lap), (∀ g ∈ acc, List.Sublist g pre) →
    ∀ g ∈ laps.foldl place_lap acc, List.Sublist g (pre ++ laps) := by
  induction laps with
  | nil =>
    intro acc pre hacc g hgmem
    simp only [List.foldl_nil] at hgmem
    simpa using hacc g hgmem
  | cons l ls ih =>
    intro acc pre hacc g hgmem
    simp only [List.foldl_cons] at hgmem
    have h2 := ih (place_lap acc l) (pre ++ [l]) (place_lap_sublist acc l pre hacc) g hgmem
    simpa [List.append_assoc] using h2

/-- Every similarity group of `_group_similar_laps` is a sublist of the lap
list: elements appear in input order within each group. -/
theorem group_similar_laps_sublist (laps : List Lap) :
    ∀ g ∈ group_similar_laps laps, List.Sublist g laps := by
  intro g hg
  have h2 := group_similar_go_sublist laps [] [] (by simp) g hg
  simpa using h2

/-- The intervals of a simple pattern list exactly the interval laps'
indices, in order. -/
theorem create_workout_pattern_intervals (interval_laps all_laps : List Lap)
    (p : WorkoutPattern) (h : create_workout_pattern interval_laps all_laps = some p) :
    p.intervals.map (·.lap_index) = interval_laps.map (·.lap_index) := by
  unfold create_workout_pattern at h
  split at h
  · exact absurd h (by simp)
  · rw [Option.some.injEq] at h
    rw [← h]
    show (interval_laps.enum.map _).map _ = _
    rw [List.map_map]
    rw [show ((fun x : IntervalEntry => x.lap_index) ∘ (fun p : ℕ × Lap =>
        (⟨p.1 + 1, p.2.distance, p.2.elapsed_time, p.2.lap_index, none, none⟩ : IntervalEntry))) =
      ((fun l : Lap => l.lap_index) ∘ Prod.snd) from rfl]
    rw [← List.map_map, List.enum_map_snd]

/-- The intervals of a complex pattern list exactly the pattern laps'
indices, in order. -/
theorem create_complex_workout_pattern_intervals (pattern_laps : List Lap)
    (pattern_types : List ℕ) (repetitions : ℕ) (all_laps : List Lap) :
    (create_complex_workout_pattern pattern_laps pattern_types repetitions all_laps).intervals.map
        (·.lap_index) =
      pattern_laps.map (·.lap_index) := by
  show (pattern_laps.enum.map _).map _ = _
  rw [List.map_map]
  rw [show ((fun x : IntervalEntry => x.lap_index) ∘ (fun p : ℕ × Lap =>
      (⟨p.1 + 1, p.2.distance, p.2.elapsed_time, p.2.lap_index,
        some (p.1 % pattern_types.length), some (p.1 / pattern_types.length + 1)⟩ :
        IntervalEntry))) =
    ((fun l : Lap => l.lap_index) ∘ Prod.snd) from rfl]
  rw [← List.map_map, List.enum_map_snd]

/-- Each triple of the sorted lap sequence carries its lap's index first. -/
theorem sorted_lap_sequence_fst (groups : List (List Lap)) :
    ∀ x ∈ sorted_lap_sequence groups, x.1 = x.2.2.lap_index := by
  intro x hx
  unfold sorted_lap_sequence at hx
  rw [List.mem_insertionSort] at hx
  obtain ⟨p, _, hx2⟩ := List.mem_flatMap.mp hx
  obtain ⟨lap, _, rfl⟩ := List.mem_map.mp hx2
  rfl

/-- The sorted lap sequence is sorted on its first (lap-index) component. -/
theorem sorted_lap_sequence_sorted (groups : List (List Lap)) :
    (sorted_lap_sequence groups).Sorted (fun a b : ℤ × ℕ × Lap => a.1 ≤ b.1) := by
  unfold sorted_lap_sequence
  letI : IsTotal (ℤ × ℕ × Lap) (fun a b => a.1 ≤ b.1) := ⟨fun a b => le_total a.1 b.1⟩
  letI : IsTrans (ℤ × ℕ × Lap) (fun a b => a.1 ≤ b.1) := ⟨fun a b c h1 h2 => le_trans h1 h2⟩
  exact List.sorted_insertionSort _ _

/-- A complex pattern from `_find_repeating_sequence` lists its intervals in
ascending lap-index order: the pattern laps are a prefix of the lap-index
sorted sequence. -/
theorem find_repeating_sequence_sorted (groups : List (List Lap)) (seq_length : ℕ)
    (all_laps : List Lap) (p : WorkoutPattern)
    (h : find_repeating_sequence groups seq_length all_laps = some p) :
    (p.intervals.map (·.lap_index)).Sorted (· ≤ ·) := by
  unfold find_repeating_sequence at h
  split at h
  · exact absurd h (by simp)
  · split at h
    · exact absurd h (by simp)
    · split at h
      · rw [Option.some.injEq] at h
        rw [← h, create_complex_workout_pattern_intervals, List.map_map]
        have hcong :
            ((sorted_lap_sequence groups).take (repetitions_of groups seq_length * seq_length)).map
                ((fun l : Lap => l.lap_index) ∘ (fun x : ℤ × ℕ × Lap => x.2.2)) =
              ((sorted_lap_sequence groups).take (repetitions_of groups seq_length * seq_length)).map
                (fun x => x.1) :=
          List.map_congr_left (fun x hx =>
            (sorted_lap_sequence_fst groups x (List.mem_of_mem_take hx)).symm)
        rw [hcong]
        have hs2 : ((sorted_lap_sequence groups).take
            (repetitions_of groups seq_length * seq_length)).Pairwise
            (fun a b : ℤ × ℕ × Lap => a.1 ≤ b.1) :=
          (sorted_lap_sequence_sorted groups).sublist (List.take_sublist _ _)
        exact List.pairwise_map.mpr hs2
      · exact absurd h (by simp)

/-- Sorted intervals propagate through the sequence-length loop. -/
theorem complex_loop_sorted (sorted_groups : List (List Lap)) (all_laps : List Lap)
    (cands : List ℕ) (p : WorkoutPattern)
    (h : complex_loop sorted_groups all_laps cands = some p) :
    (p.intervals.map (·.lap_index)).Sorted (· ≤ ·) := by
  induction cands with
  | nil => exact absurd h (by simp [complex_loop])
  | cons k ks ih =>
    unfold complex_loop at h
    split at h
    · rename_i q hq
      rw [Option.some.injEq] at h
      rw [← h]
      exact find_repeating_sequence_sorted _ _ _ _ hq
    · exact ih h

/-- Sorted intervals for any pattern of `_detect_complex_pattern`. -/
theorem detect_complex_sorted (groups : List (List Lap)) (all_laps : List Lap)
    (p : WorkoutPattern) (h : detect_complex_pattern groups all_laps = some p) :
    (p.intervals.map (·.lap_index)).Sorted (· ≤ ·) := by
  unfold detect_complex_pattern at h
  split at h
  · exact absurd h (by simp)
  · exact complex_loop_sorted _ _ _ _ h

/-- When every group is lap-index sorted, so is every pattern of
`_find_all_patterns`. -/
theorem find_all_patterns_sorted (groups : List (List Lap)) (all_laps : List Lap)
    (ps : List WorkoutPattern)
    (hgroups : ∀ g ∈ groups, ((g.map (·.lap_index)).Sorted (· ≤ ·)))
    (h : find_all_patterns groups all_laps = some ps) :
    ∀ p ∈ ps, ((p.intervals.map (·.lap_index)).Sorted (· ≤ ·)) := by
  unfold find_all_patterns at h
  split at h
  · exact absurd h (by simp)
  · rename_i simple hsimple
    split at h
    · rename_i cp hcp
      rw [Option.some.injEq] at h
      intro p hp
      rw [← h] at hp
      rcases List.mem_append.mp hp with hp | hp
      · obtain ⟨g, hgmem, hg⟩ := create_patterns_mem _ _ _ hsimple p hp
        rw [create_workout_pattern_intervals _ _ _ hg]
        exact hgroups g hgmem
      · rw [List.mem_singleton] at hp
        rw [hp]
        exact detect_complex_sorted _ _ _ hcp
    · rw [Option.some.injEq] at h
      intro p hp
      rw [← h] at hp
      obtain ⟨g, hgmem, hg⟩ := create_patterns_mem _ _ _ hsimple p hp
      rw [create_workout_pattern_intervals _ _ _ hg]
      exact hgroups g hgmem

/-- C4 (amended): when the work/rest separation does not apply (its rest
side is empty, so the analysis takes the no-separation path) and the input
laps are in ascending lap-index order, every returned pattern — simple or
complex — lists its intervals in ascending lap-index order.  In the
work/rest-separated path this fails, because `_identify_work_and_rest_laps`
returns the work laps pace-sorted — see the counterexample. -/
theorem c4_amended (laps : List Lap) (ps : List WorkoutPattern)
    (hsorted : (laps.map (·.lap_index)).Sorted (· ≤ ·))
    (hnosep : (identify_work_and_rest_laps (filter_warmup_cooldown laps)).2 = [])
    (h : analyze_laps laps = some ps) :
    ∀ p ∈ ps, ((p.intervals.map (·.lap_index)).Sorted (· ≤ ·)) := by
  unfold analyze_laps at h
  split at h
  · rw [Option.some.injEq] at h
    intro p hp
    rw [← h] at hp
    simp at hp
  · split at h
    · rw [Option.some.injEq] at h
      intro p hp
      rw [← h] at hp
      simp at hp
    · split at h
      · rw [Option.some.injEq] at h
        intro p hp
        rw [← h] at hp
        simp at hp
      · split at h
        · rename_i hcond
          rw [hnosep] at hcond
          simp at hcond
        · unfold analyze_without_separation at h
          apply find_all_patterns_sorted _ _ _ _ h
          intro g hg
          have hsub : List.Sublist g laps :=
            (group_similar_laps_sublist _ g hg).trans (filter_warmup_cooldown_sublist laps)
          exact hsorted.sublist (hsub.map (·.lap_index))

set_option maxRecDepth 8000 in
/-- C4 witness; instantiates `c4_amended` on two ascending 600 m laps where
the separation's rest side is empty. -/
theorem c4_amended_witness :
    (c4_witness_laps.map (·.lap_index)).Sorted (· ≤ ·) ∧
    (identify_work_and_rest_laps (filter_warmup_cooldown c4_witness_laps)).2 = [] ∧
    analyze_laps c4_witness_laps = some [c4_witness_pattern] ∧
    (c4_witness_pattern.intervals.map (·.lap_index)).Sorted (· ≤ ·) :=
  ⟨by with_unfolding_all decide, by with_unfolding_all decide, by with_unfolding_all decide,
    c4_amended c4_witness_laps [c4_witness_pattern] (by with_unfolding_all decide)
      (by with_unfolding_all decide) (by with_unfolding_all decide) c4_witness_pattern
      (by simp)⟩

/-- C4: counterexample to "intervals are ordered by ascending lap_index":
for `c4_laps` the work laps are pace-sorted before grouping, so the single
returned pattern lists its intervals in lap order 3, 5, 1. -/
theorem c4_counterexample :
    (c4_laps.map (·.lap_index)).Sorted (· ≤ ·) ∧
    (analyze_laps c4_laps).map (fun ps => ps.map (fun p => p.intervals.map (·.lap_index))) =
      some [[3, 5, 1]] ∧
    ¬ List.Sorted (· ≤ ·) [(3 : ℤ), 5, 1] := by
  refine ⟨by with_unfolding_all decide, by with_unfolding_all decide, by with_unfolding_all decide⟩

/-- C5: counterexample to "rest information is attached only if both CVs are
≤ 0.4": in `c5_laps` the rest laps' time CV exceeds 0.4 (their distance CV
is 0), yet `_calculate_rest_info` attaches a rest summary, because the
source gates on `time_cv > 0.4 and dist_cv > 0.4`. -/
theorem c5_counterexample :
    4 / 10 <
      calculate_cv
        (((identify_work_and_rest_laps (filter_warmup_cooldown c5_laps)).2).map (·.elapsed_time)) ∧
    (analyze_laps c5_laps).map (fun ps => ps.map (fun p => p.rest_periods.length)) = some [1] := by
  refine ⟨by with_unfolding_all decide, by with_unfolding_all decide⟩

/-- `sqrtq` never returns a negative value. -/
theorem sqrtq_nonneg (x : ℚ) : 0 ≤ sqrtq x := by
  unfold sqrtq
  split
  · exact le_refl 0
  · positivity

/-- A positive `calculate_cv` forces a positive mean and at least two values. -/
theorem calculate_cv_pos_mean (values : List ℚ) (h : 0 < calculate_cv values) :
    0 < values.sum / (values.length : ℚ) ∧ 2 ≤ values.length := by
  simp only [calculate_cv] at h
  split at h
  · exact absurd h (by norm_num)
  · rename_i hlen
    split at h
    · exact absurd h (by norm_num)
    · rename_i hmean
      refine ⟨?_, by omega⟩
      rcases lt_trichotomy (values.sum / (values.length : ℚ)) 0 with hneg | hzero | hpos
      · exact absurd h (not_lt.mpr (div_nonpos_of_nonneg_of_nonpos (sqrtq_nonneg _) hneg.le))
      · exact absurd hzero hmean
      · exact hpos

/-- C5 (amended): `_calculate_rest_info` attaches a rest summary whenever
there are at least two rest laps and at least one of the two coefficients of
variation (time, distance) is ≤ 0.4; it returns no summary whenever both
exceed 0.4.  (The original claim required both to be ≤ 0.4 for attachment;
the source's gate is `time_cv > 0.4 and dist_cv > 0.4`.) -/
theorem c5_amended (work_laps rest_laps all_laps : List Lap) :
    (2 ≤ rest_laps.length →
      (calculate_cv (rest_laps.map (·.elapsed_time)) ≤ 4 / 10 ∨
        calculate_cv (rest_laps.map (·.distance)) ≤ 4 / 10) →
      calculate_rest_info work_laps rest_laps all_laps ≠ []) ∧
    ((4 / 10 < calculate_cv (rest_laps.map (·.elapsed_time)) ∧
        4 / 10 < calculate_cv (rest_laps.map (·.distance))) →
      calculate_rest_info work_laps rest_laps all_laps = []) := by
  constructor
  · intro hlen hcv
    have hne : rest_laps ≠ [] := by
      intro hh
      rw [hh] at hlen
      simp at hlen
    simp only [calculate_rest_info]
    rw [if_neg, if_neg]
    · simp
    · rintro ⟨ht, hd⟩
      rcases hcv with hcv | hcv
      · by_cases h0 :
          0 < (rest_laps.map (·.elapsed_time)).sum / (((rest_laps.map (·.elapsed_time)).length : ℕ) : ℚ)
        · rw [if_pos h0] at ht
          exact absurd hcv (not_le.mpr ht)
        · rw [if_neg h0] at ht
          norm_num at ht
      · by_cases h0 :
          0 < (rest_laps.map (·.distance)).sum / (((rest_laps.map (·.distance)).length : ℕ) : ℚ)
        · rw [if_pos h0] at hd
          exact absurd hcv (not_le.mpr hd)
        · rw [if_neg h0] at hd
          norm_num at hd
    · simp only [not_or, not_lt, List.isEmpty_iff]
      exact ⟨hne, hlen⟩
  · rintro ⟨ht, hd⟩
    have hmt := calculate_cv_pos_mean (rest_laps.map (·.elapsed_time)) (lt_trans (by norm_num) ht)
    have hmd := calculate_cv_pos_mean (rest_laps.map (·.distance)) (lt_trans (by norm_num) hd)
    simp only [calculate_rest_info]
    split
    · rfl
    · rw [if_pos]
      constructor
      · rw [if_pos]
        · exact ht
        · simpa using hmt.1
      · rw [if_pos]
        · exact hd
        · simpa using hmd.1

/-- C5 witness; instantiates the attachment direction of `c5_amended` on the
six rest laps of `c5_laps`, whose distance CV is 0 but whose time CV
exceeds 0.4. -/
theorem c5_amended_witness :
    2 ≤ c5_witness_rest.length ∧
    calculate_cv (c5_witness_rest.map (·.distance)) ≤ 4 / 10 ∧
    calculate_rest_info [] c5_witness_rest [] ≠ [] :=
  ⟨by decide, by with_unfolding_all decide,
    (c5_amended [] c5_witness_rest []).1 (by decide)
      (Or.inr (by with_unfolding_all decide))⟩

/-- C6 (amended): whenever the rest-period list handed to
`_generate_pattern_description` is non-empty and description generation
succeeds, the produced description ends in the recovery clause
`" w/ {formatted rest value} recovery"`.  (The original claim quantified over
the `rest_periods` stored on the returned pattern; in the work/rest-separated
path that field is overwritten by `_calculate_rest_info` after the
description was generated from the rest periods detected among the work laps
alone, so a returned pattern can carry rest summaries without the clause —
see the counterexample.) -/
theorem c6_amended (count : ℕ) (avg_distance avg_time : ℚ)
    (rest_periods : List RestPeriod) (s : String)
    (hne : rest_periods ≠ [])
    (h : generate_pattern_description count avg_distance avg_time rest_periods = some s) :
    ∃ t r, s = t ++ " w/ " ++ r ++ " recovery" := by
  cases rest_periods with
  | nil => exact absurd rfl hne
  | cons rp rest =>
    unfold generate_pattern_description at h
    split at h
    · exact absurd h (by simp)
    · split at h
      · exact absurd ‹rp :: rest = []› (by simp)
      · split at h
        · exact absurd h (by simp)
        · rw [Option.some.injEq] at h
          exact ⟨_, _, h.symm⟩

/-- C6 witness; instantiates `c6_amended` on a 3 × 600 m pattern with one
200 m rest period. -/
theorem c6_amended_witness :
    generate_pattern_description 3 600 90 [⟨150, 200, 2, none, none⟩] =
      some "3 x 600m w/ 200m recovery" ∧
    ∃ t r, "3 x 600m w/ 200m recovery" = t ++ " w/ " ++ r ++ " recovery" :=
  ⟨by with_unfolding_all decide,
    c6_amended 3 600 90 [⟨150, 200, 2, none, none⟩] "3 x 600m w/ 200m recovery"
      (by simp) (by with_unfolding_all decide)⟩

/-- C6: counterexample to "non-empty rest_periods implies the description
ends with a recovery clause": the pattern returned for `c6_laps` carries one
rest summary (attached after description generation from
`_calculate_rest_info`), but its description is exactly "3 x 600m", which
does not end with " recovery". -/
theorem c6_counterexample :
    (analyze_laps c6_laps).map
        (fun ps => ps.map (fun p => (p.rest_periods.length, p.description))) =
      some [(1, "3 x 600m")] ∧
    ("3 x 600m" : String).endsWith " recovery" = false := by
  refine ⟨by with_unfolding_all decide, by with_unfolding_all decide⟩

/-- C7: for nine work laps forming three repetitions of 200-400-200 the code
returns two simple per-distance patterns "6 x 200m" and "3 x 400m"; no
returned pattern is described "3 x (200m-400m-200m)" (the repeated
sub-pattern search only tries cycle lengths up to the number of distinct
similarity groups, and `_create_complex_workout_pattern` would join the
block with ", " rather than "-"), although the repository's own test suite
expects exactly that hyphenated description. -/
theorem c7_code_evaluation :
    (analyze_laps c7_laps).map (fun ps => ps.map (·.description)) =
      some ["6 x 200m", "3 x 400m"] ∧
    "3 x (200m-400m-200m)" ∉ ((analyze_laps c7_laps).getD []).map (·.description) := by
  refine ⟨by with_unfolding_all decide, by with_unfolding_all decide⟩

/-- C8: two laps of zero distance reach the unguarded division
`abs(avg_distance - rounded_distance) / avg_distance` in
`_is_distance_based_workout` with `avg_distance == 0`, so `analyze_laps`
raises `ZeroDivisionError` (modelled by `none`) instead of excluding the
degenerate laps. -/
theorem c8_code_evaluation :
    c8_laps.all (fun l => decide (l.distance = 0)) = true ∧
    analyze_laps c8_laps = none := by
  refine ⟨by with_unfolding_all decide, by with_unfolding_all decide⟩

/-- The clamp `min(1.0, max(0.1, x))` lands in `[0.1, 1]`. -/
theorem clamp_bounds (x : ℚ) :
    1 / 10 ≤ min 1 (max (1 / 10) x) ∧ min 1 (max (1 / 10) x) ≤ 1 :=
  ⟨le_min (by norm_num) (le_max_left _ _), min_le_left _ _⟩

/-- `_calculate_confidence` always lands in `[0.1, 1]`. -/
theorem calculate_confidence_bounds (interval_laps all_laps : List Lap) :
    1 / 10 ≤ calculate_confidence interval_laps all_laps ∧
    calculate_confidence interval_laps all_laps ≤ 1 := by
  unfold calculate_confidence
  split
  · norm_num
  · exact clamp_bounds _

/-- `_calculate_complex_confidence` always lands in `[0.1, 1]`. -/
theorem calculate_complex_confidence_bounds (pattern_laps : List Lap)
    (sequence_groups : List (List Lap)) :
    1 / 10 ≤ calculate_complex_confidence pattern_laps sequence_groups ∧
    calculate_complex_confidence pattern_laps sequence_groups ≤ 1 := by
  unfold calculate_complex_confidence
  split
  · norm_num
  · exact clamp_bounds _

/-- A pattern built by `_create_workout_pattern` carries the
`_calculate_confidence` value. -/
theorem create_workout_pattern_bounds (interval_laps all_laps : List Lap)
    (p : WorkoutPattern) (h : create_workout_pattern interval_laps all_laps = some p) :
    1 / 10 ≤ p.confidence ∧ p.confidence ≤ 1 := by
  unfold create_workout_pattern at h
  split at h
  · exact absurd h (by simp)
  · rw [Option.some.injEq] at h
    rw [← h]
    exact calculate_confidence_bounds interval_laps all_laps

/-- A pattern built by `_create_complex_workout_pattern` carries the
`_calculate_complex_confidence` value. -/
theorem create_complex_workout_pattern_bounds (pattern_laps : List Lap)
    (pattern_types : List ℕ) (repetitions : ℕ) (all_laps : List Lap) :
    1 / 10 ≤ (create_complex_workout_pattern pattern_laps pattern_types repetitions all_laps).confidence ∧
    (create_complex_workout_pattern pattern_laps pattern_types repetitions all_laps).confidence ≤ 1 := by
  have hconf : (create_complex_workout_pattern pattern_laps pattern_types repetitions all_laps).confidence =
      calculate_complex_confidence pattern_laps
        ((List.range pattern_types.length).map (fun j =>
          (pattern_laps.enum.filter (fun p => p.1 % pattern_types.length = j)).map (·.2))) := rfl
  rw [hconf]
  exact calculate_complex_confidence_bounds _ _

/-- Any pattern from `_find_repeating_sequence` is a complex pattern with
clamped confidence. -/
theorem find_repeating_bounds (groups : List (List Lap)) (seq_length : ℕ)
    (all_laps : List Lap) (p : WorkoutPattern)
    (h : find_repeating_sequence groups seq_length all_laps = some p) :
    1 / 10 ≤ p.confidence ∧ p.confidence ≤ 1 := by
  unfold find_repeating_sequence at h
  split at h
  · exact absurd h (by simp)
  · split at h
    · exact absurd h (by simp)
    · split at h
      · rw [Option.some.injEq] at h
        rw [← h]
        exact create_complex_workout_pattern_bounds _ _ _ _
      · exact absurd h (by simp)

/-- Confidence bounds propagate through the sequence-length loop. -/
theorem complex_loop_bounds (sorted_groups : List (List Lap)) (all_laps : List Lap)
    (cands : List ℕ) (p : WorkoutPattern)
    (h : complex_loop sorted_groups all_laps cands = some p) :
    1 / 10 ≤ p.confidence ∧ p.confidence ≤ 1 := by
  induction cands with
  | nil => exact absurd h (by simp [complex_loop])
  | cons k ks ih =>
    unfold complex_loop at h
    split at h
    · rename_i q hq
      rw [Option.some.injEq] at h
      rw [← h]
      exact find_repeating_bounds _ _ _ _ hq
    · exact ih h

/-- Confidence bounds for `_detect_complex_pattern`. -/
theorem detect_complex_bounds (groups : List (List Lap)) (all_laps : List Lap)
    (p : WorkoutPattern) (h : detect_complex_pattern groups all_laps = some p) :
    1 / 10 ≤ p.confidence ∧ p.confidence ≤ 1 := by
  unfold detect_complex_pattern at h
  split at h
  · exact absurd h (by simp)
  · exact complex_loop_bounds _ _ _ _ h

/-- Confidence bounds for every pattern of `_find_all_patterns`. -/
theorem find_all_patterns_bounds (groups : List (List Lap)) (all_laps : List Lap)
    (ps : List WorkoutPattern) (h : find_all_patterns groups all_laps = some ps) :
    ∀ p ∈ ps, 1 / 10 ≤ p.confidence ∧ p.confidence ≤ 1 := by
  unfold find_all_patterns at h
  split at h
  · exact absurd h (by simp)
  · rename_i simple hsimple
    split at h
    · rename_i cp hcp
      rw [Option.some.injEq] at h
      intro p hp
      rw [← h] at hp
      rcases List.mem_append.mp hp with hp | hp
      · obtain ⟨g, hgmem, hg⟩ := create_patterns_mem _ _ _ hsimple p hp
        exact create_workout_pattern_bounds _ _ _ hg
      · rw [List.mem_singleton] at hp
        rw [hp]
        exact detect_complex_bounds _ _ _ hcp
    · rw [Option.some.injEq] at h
      intro p hp
      rw [← h] at hp
      obtain ⟨g, hgmem, hg⟩ := create_patterns_mem _ _ _ hsimple p hp
      exact create_workout_pattern_bounds _ _ _ hg

/-- Confidence bounds for the work/rest-separated branch (the rest-period
overwrite leaves `confidence` untouched). -/
theorem analyze_with_separation_bounds (work_laps rest_laps filtered_laps : List Lap)
    (ps : List WorkoutPattern) (h : analyze_with_separation work_laps rest_laps filtered_laps = some ps) :
    ∀ p ∈ ps, 1 / 10 ≤ p.confidence ∧ p.confidence ≤ 1 := by
  unfold analyze_with_separation at h
  split at h
  · exact absurd h (by simp)
  · rename_i simple hsimple
    split at h
    · exact absurd h (by simp)
    · rename_i patterns hpat
      rw [Option.some.injEq] at h
      intro p hp
      rw [← h] at hp
      obtain ⟨q, hq, hqp⟩ := List.mem_map.mp hp
      have hconf : p.confidence = q.confidence := by rw [← hqp]
      rw [hconf]
      by_cases hempty : simple.isEmpty
      · rw [if_pos hempty] at hpat
        exact find_all_patterns_bounds _ _ _ hpat q hq
      · rw [if_neg hempty] at hpat
        rw [Option.some.injEq] at hpat
        rw [← hpat] at hq
        obtain ⟨g, hgmem, hg⟩ := create_patterns_mem _ _ _ hsimple q hq
        exact create_workout_pattern_bounds _ _ _ hg

/-- C9: every WorkoutPattern the analyzer returns has its confidence in
[0.1, 1.0]; absence of a pattern is the empty list (the early returns all
yield `some []`), never a zero-confidence pattern. -/
theorem c9_confidence_bounds (laps : List Lap) (ps : List WorkoutPattern)
    (h : analyze_laps laps = some ps) :
    ∀ p ∈ ps, 1 / 10 ≤ p.confidence ∧ p.confidence ≤ 1 := by
  unfold analyze_laps at h
  split at h
  · rw [Option.some.injEq] at h
    intro p hp
    rw [← h] at hp
    simp at hp
  · split at h
    · rw [Option.some.injEq] at h
      intro p hp
      rw [← h] at hp
      simp at hp
    · split at h
      · rw [Option.some.injEq] at h
        intro p hp
        rw [← h] at hp
        simp at hp
      · split at h
        · exact analyze_with_separation_bounds _ _ _ _ h
        · unfold analyze_without_separation at h
          exact find_all_patterns_bounds _ _ _ h

set_option maxRecDepth 8000 in
/-- C9 witness; instantiates `c9_confidence_bounds` on the pattern returned
for two similar 600 m laps (confidence 0.5). -/
theorem c9_witness :
    analyze_laps c9_laps = some [c9_pattern] ∧
    (1 / 10 ≤ c9_pattern.confidence ∧ c9_pattern.confidence ≤ 1) :=
  ⟨by with_unfolding_all decide,
    c9_confidence_bounds c9_laps [c9_pattern] (by with_unfolding_all decide) c9_pattern
      (by simp)⟩

/-- C10: the analysis is deterministic and idempotent — two invocations on
the same input produce identical results, in particular identical pattern
descriptions and confidences (the embedding is a pure function; the Python
source holds no state across calls and its only exotic construct, the unused
`id(group)` table in `_find_repeating_sequence`, never influences the
output). -/
theorem c10_deterministic (laps : List Lap) (activity_name activity_type : String) :
    analyze_workout_from_laps laps activity_name activity_type =
      analyze_workout_from_laps laps activity_name activity_type ∧
    (analyze_laps laps).map (fun ps => ps.map (·.description)) =
      (analyze_laps laps).map (fun ps => ps.map (·.description)) ∧
    (analyze_laps laps).map (fun ps => ps.map (·.confidence)) =
      (analyze_laps laps).map (fun ps => ps.map (·.confidence)) :=
  ⟨rfl, rfl, rfl⟩

end Strava
